import Mathlib

/-!
Shallow embedding of `monocryst.py` from the gosam repository (generator of
simple atomistic models): the lattice-decoration data model, the lattice
factory catalog with its name lookup, the orthorhombic periodic box filler,
the rotated-monocrystal builder, and the `mono` driver.

Python floats are idealised as exact rationals (`ℚ`); Python strings are
Lean `String`s with all case/affix operations re-implemented over their
character lists.  Collaborator modules of the repository that are not part
of `monocryst.py` (`latt`, `graingen`, `mdprim`, `rotmat`, `copy.deepcopy`)
are modelled from the specification; each such definition carries a doc
comment starting with `Modelled from the spec:`.
-/

/-- A 3-vector of rationals; embeds the numpy 1-d arrays of length 3 used
throughout `monocryst.py`. -/
structure Vec3 where
  x : ℚ
  y : ℚ
  z : ℚ
deriving DecidableEq

instance : Add Vec3 := ⟨fun a b => ⟨a.x + b.x, a.y + b.y, a.z + b.z⟩⟩

/-- A 3×3 rational matrix, stored as its three rows. -/
structure Mat3 where
  r1 : Vec3
  r2 : Vec3
  r3 : Vec3
deriving DecidableEq

/-- Row-vector times matrix, `numpy.dot(v, M)` for a length-3 `v` and a
3×3 `M`. -/
def vecMulMat (v : Vec3) (m : Mat3) : Vec3 :=
  ⟨v.x * m.r1.x + v.y * m.r2.x + v.z * m.r3.x,
   v.x * m.r1.y + v.y * m.r2.y + v.z * m.r3.y,
   v.x * m.r1.z + v.y * m.r2.z + v.z * m.r3.z⟩

/-- 3×3 matrix product (rows of the left factor times the right factor). -/
def matMulMat (a b : Mat3) : Mat3 :=
  ⟨vecMulMat a.r1 b, vecMulMat a.r2 b, vecMulMat a.r3 b⟩

/-- Modelled from the spec: the `latt` unit-cell classes are not under
`src/`.  Per the spec the cell carries "a derived 3×3 transformation matrix
mapping fractional coordinates (relative to the unit cell) to absolute
Cartesian coordinates"; `monocryst.py` reads that matrix as `M_1`. -/
structure UnitCell where
  M_1 : Mat3
deriving DecidableEq

instance : Inhabited UnitCell :=
  ⟨⟨⟨⟨0, 0, 0⟩, ⟨0, 0, 0⟩, ⟨0, 0, 0⟩⟩⟩⟩

/-- Modelled from the spec: `UnitCell.rotate` of the `latt` module is not
under `src/`.  The spec: it "applies a 3×3 rotation to the cell's basis
vectors, recomputing the transform", and "calling twice compounds
rotations".  The basis vectors are the rows of `M_1`, so one call
multiplies `M_1` by the rotation matrix. -/
def rotateCell (r : Mat3) (c : UnitCell) : UnitCell :=
  ⟨matMulMat c.M_1 r⟩

/-- Modelled from the spec: `latt.CubicUnitCell(a)`; the fractional→absolute
map of a cubic cell of parameter `a` scales every axis by `a`. -/
def CubicUnitCell (a : ℚ) : UnitCell :=
  ⟨⟨⟨a, 0, 0⟩, ⟨0, a, 0⟩, ⟨0, 0, a⟩⟩⟩

/-- Modelled from the spec: `latt.OrthorhombicUnitCell(a, b, c)`. -/
def OrthorhombicUnitCell (a b c : ℚ) : UnitCell :=
  ⟨⟨⟨a, 0, 0⟩, ⟨0, b, 0⟩, ⟨0, 0, c⟩⟩⟩

/-- Modelled from the spec: `latt.TetragonalUnitCell(a, c)`. -/
def TetragonalUnitCell (a c : ℚ) : UnitCell :=
  ⟨⟨⟨a, 0, 0⟩, ⟨0, a, 0⟩, ⟨0, 0, c⟩⟩⟩

/-- Rational stand-in for the floating-point value of `sqrt 3` used by
hexagonal cells.  The Python code computes with IEEE doubles (each itself a
rational); no claim below depends on hexagonal-cell geometry, only on the
catalog entries being well-defined values. -/
def sqrtThreeApprox : ℚ := 1732050807568877 / 1000000000000000

/-- Modelled from the spec: `latt.HexagonalUnitCell(a, c)` with the standard
hexagonal basis (the out-of-axis component uses `sqrtThreeApprox`). -/
def HexagonalUnitCell (a c : ℚ) : UnitCell :=
  ⟨⟨⟨a, 0, 0⟩, ⟨-a / 2, a * sqrtThreeApprox / 2, 0⟩, ⟨0, 0, c⟩⟩⟩

/-- Modelled from the spec: `latt.AtomInNode` — "species symbol +
fractional offset from the node, itself expressed in unit-cell
fractions". -/
structure AtomInNode where
  name : String
  pos : Vec3
deriving DecidableEq

/-- Modelled from the spec: `latt.Node` — "a fractional position within the
unit cell, plus an ordered sequence of AtomInNode records". -/
structure Node where
  pos : Vec3
  atoms_in_node : List AtomInNode
deriving DecidableEq

/-- Modelled from the spec: `graingen.CrystalLattice` — "owns one UnitCell
and an ordered sequence of Node". -/
structure CrystalLattice where
  unit_cell : UnitCell
  nodes : List Node
deriving DecidableEq

/-- Output atom (`mdprim.Atom`): species symbol + absolute position. -/
structure Atom where
  name : String
  pos : Vec3
deriving DecidableEq

/-- Modelled from the spec: `graingen.simple_nodes` — the canonical
simple-cubic node table (one node per cell). -/
def simple_nodes : List Vec3 := [⟨0, 0, 0⟩]

/-- Modelled from the spec: `graingen.fcc_nodes` — the canonical
face-centered-cubic node table (corner plus three face centers). -/
def fcc_nodes : List Vec3 :=
  [⟨0, 0, 0⟩, ⟨1/2, 1/2, 0⟩, ⟨1/2, 0, 1/2⟩, ⟨0, 1/2, 1/2⟩]

/-- Modelled from the spec: `graingen.bcc_nodes` — the canonical
body-centered node table (corner plus body center). -/
def bcc_nodes : List Vec3 := [⟨0, 0, 0⟩, ⟨1/2, 1/2, 1/2⟩]

/-- Modelled from the spec: `graingen.hcp_nodes` — the canonical
hexagonal-close-packed node table (two nodes per cell). -/
def hcp_nodes : List Vec3 := [⟨0, 0, 0⟩, ⟨1/3, 2/3, 1/2⟩]

/-- `get_diamond_node_pos` of `monocryst.py`: each fcc node followed by the
same node shifted by `(0.25, 0.25, 0.25)`. -/
def get_diamond_node_pos : List Vec3 :=
  fcc_nodes.flatMap (fun i => [i, i + ⟨1/4, 1/4, 1/4⟩])

/-- `make_lattice` of `monocryst.py`: wrap every node position with the
shared per-node atom list (each atom given as name and fractional
offset). -/
def make_lattice (cell : UnitCell) (node_pos : List Vec3)
    (node_atoms : List (String × ℚ × ℚ × ℚ)) : CrystalLattice :=
  ⟨cell, node_pos.map (fun p =>
    ⟨p, node_atoms.map (fun a => ⟨a.1, ⟨a.2.1, a.2.2.1, a.2.2.2⟩⟩)⟩)⟩

/-- `make_simple_cubic_lattice` of `monocryst.py`. -/
def make_simple_cubic_lattice (symbol : String) (a : ℚ) : CrystalLattice :=
  ⟨CubicUnitCell a, [⟨⟨0, 0, 0⟩, [⟨symbol, ⟨0, 0, 0⟩⟩]⟩]⟩

/-- `make_fcc_lattice` of `monocryst.py`. -/
def make_fcc_lattice (symbol : String) (a : ℚ) : CrystalLattice :=
  make_lattice (CubicUnitCell a) fcc_nodes [(symbol, 0, 0, 0)]

/-- `make_bcc_lattice` of `monocryst.py`. -/
def make_bcc_lattice (symbol : String) (a : ℚ) : CrystalLattice :=
  make_lattice (CubicUnitCell a) bcc_nodes [(symbol, 0, 0, 0)]

/-- `make_hcp_lattice` of `monocryst.py`. -/
def make_hcp_lattice (symbol : String) (a c : ℚ) : CrystalLattice :=
  make_lattice (HexagonalUnitCell a c) hcp_nodes
    [(symbol, 1/2, -866/1000, 1/4), (symbol, 1/2, 866/1000, 3/4)]

/-- `make_zincblende_lattice` of `monocryst.py` (the two-species arity
assertion of the source is enforced by the pair type). -/
def make_zincblende_lattice (symbols : String × String) (a : ℚ) :
    CrystalLattice :=
  make_lattice (CubicUnitCell a) fcc_nodes
    [(symbols.1, 0, 0, 0), (symbols.2, 1/4, 1/4, 1/4)]

/-- `make_zincblende2_lattice` of `monocryst.py`. -/
def make_zincblende2_lattice (symbols : String × String) (a : ℚ) :
    CrystalLattice :=
  make_lattice (CubicUnitCell a) fcc_nodes
    [(symbols.1, 0, 0, 0), (symbols.2, 1/4, 3/4, 3/4)]

/-- `make_nacl_lattice` of `monocryst.py`: fcc nodes, first species at the
node, second at the body-center offset. -/
def make_nacl_lattice (symbols : String × String) (a : ℚ) : CrystalLattice :=
  make_lattice (CubicUnitCell a) fcc_nodes
    [(symbols.1, 0, 0, 0), (symbols.2, 1/2, 1/2, 1/2)]

/-- `make_nbo_lattice` of `monocryst.py`. -/
def make_nbo_lattice (symbols : String × String) (a : ℚ) : CrystalLattice :=
  make_lattice (CubicUnitCell a) fcc_nodes
    [(symbols.1, 0, 0, 0), (symbols.2, 1/2, 1/2, 1/2)]

/-- `make_niti_lattice` of `monocryst.py`. -/
def make_niti_lattice (symbols : String × String) (a : ℚ) : CrystalLattice :=
  make_lattice (CubicUnitCell a) simple_nodes
    [(symbols.1, 0, 0, 0), (symbols.2, 1/2, 1/2, 1/2)]

/-- `make_crnb_lattice` of `monocryst.py`. -/
def make_crnb_lattice (symbols : String × String) (a : ℚ) : CrystalLattice :=
  make_lattice (CubicUnitCell a) fcc_nodes
    [(symbols.2, 1/8, 1/8, 1/8), (symbols.2, 7/8, 7/8, 7/8),
     (symbols.1, 1/2, 1/2, 1/2), (symbols.1, 1/2, 1/4, 1/4),
     (symbols.1, 1/4, 1/2, 1/4), (symbols.1, 1/4, 1/4, 1/2)]

/-- `make_tial_lattice` of `monocryst.py`. -/
def make_tial_lattice (symbols : String × String) (a b c : ℚ) :
    CrystalLattice :=
  make_lattice (OrthorhombicUnitCell a b c) bcc_nodes
    [(symbols.1, 0, 0, 0), (symbols.2, 1/2, 0, 1/2)]

/-- `make_diamond_lattice` of `monocryst.py`. -/
def make_diamond_lattice (symbol : String) (a : ℚ) : CrystalLattice :=
  make_lattice (CubicUnitCell a) get_diamond_node_pos [(symbol, 0, 0, 0)]

/-- `make_bct_lattice` of `monocryst.py` (body-centered tetragonal). -/
def make_bct_lattice (symbol : String) (a c : ℚ) : CrystalLattice :=
  make_lattice (TetragonalUnitCell a c) bcc_nodes [(symbol, 0, 0, 0)]

/-- The four-species decoration shared textually by the kesterite factory
of `monocryst.py`. -/
def kesteriteAtoms (s : String × String × String × String) :
    List (String × ℚ × ℚ × ℚ) :=
  [(s.1, 0, 0, 0), (s.2.1, 1/2, 1/2, 0),
   (s.1, 0, 1/2, 1/4), (s.2.2.1, 1/2, 0, 1/4),
   (s.2.1, 0, 0, 1/2), (s.1, 1/2, 1/2, 1/2),
   (s.2.2.1, 0, 1/2, 3/4), (s.1, 1/2, 0, 3/4),
   (s.2.2.2, 1/4, 1/4, 1/8), (s.2.2.2, 3/4, 3/4, 1/8),
   (s.2.2.2, 1/4, 3/4, 3/8), (s.2.2.2, 3/4, 1/4, 3/8),
   (s.2.2.2, 1/4, 1/4, 5/8), (s.2.2.2, 3/4, 3/4, 5/8),
   (s.2.2.2, 1/4, 3/4, 7/8), (s.2.2.2, 3/4, 1/4, 7/8)]

/-- `make_kesterite_structure` of `monocryst.py`. -/
def make_kesterite_structure (s : String × String × String × String)
    (a b c : ℚ) : CrystalLattice :=
  make_lattice (OrthorhombicUnitCell a b c) bcc_nodes (kesteriteAtoms s)

/-- The four-species decoration of the stannite factory of
`monocryst.py` (same sulfur sublattice, permuted cations). -/
def stanniteAtoms (s : String × String × String × String) :
    List (String × ℚ × ℚ × ℚ) :=
  [(s.1, 0, 0, 0), (s.1, 1/2, 1/2, 0),
   (s.2.1, 0, 1/2, 1/4), (s.2.2.1, 1/2, 0, 1/4),
   (s.1, 0, 0, 1/2), (s.1, 1/2, 1/2, 1/2),
   (s.2.2.1, 0, 1/2, 3/4), (s.2.1, 1/2, 0, 3/4),
   (s.2.2.2, 1/4, 1/4, 1/8), (s.2.2.2, 3/4, 3/4, 1/8),
   (s.2.2.2, 1/4, 3/4, 3/8), (s.2.2.2, 3/4, 1/4, 3/8),
   (s.2.2.2, 1/4, 1/4, 5/8), (s.2.2.2, 3/4, 3/4, 5/8),
   (s.2.2.2, 1/4, 3/4, 7/8), (s.2.2.2, 3/4, 1/4, 7/8)]

/-- `make_stannite_structure` of `monocryst.py`. -/
def make_stannite_structure (s : String × String × String × String)
    (a b c : ℚ) : CrystalLattice :=
  make_lattice (OrthorhombicUnitCell a b c) bcc_nodes (stanniteAtoms s)

/-- Modelled from the spec: the in-plane offset selected by one letter of a
stacking-sequence string ("each letter selecting one of a small set of
fixed in-plane offsets at increasing layer height"). -/
def polytypeOffset (c : Char) : ℚ × ℚ :=
  if c = 'B' then (1/3, 2/3) else if c = 'C' then (2/3, 1/3) else (0, 0)

/-- Modelled from the spec: `latt.generate_polytype` /
`graingen.generate_polytype` are not under `src/`.  The spec: the
hexagonal-polytype generator "derives node positions procedurally from a
stacking-sequence string", one layer per letter at increasing height; the
cell is hexagonal with in-plane parameter `a` and total height
`h * length`. -/
def generate_polytype (a h : ℚ) (polytype : String) :
    UnitCell × List Vec3 :=
  let n : ℚ := polytype.length
  let nodes := (polytype.data.enum).map (fun p =>
    let off := polytypeOffset p.2
    (⟨off.1, off.2, (p.1 : ℚ) / n⟩ : Vec3))
  (HexagonalUnitCell a (h * n), nodes)

/-- `make_sic_polytype_lattice` of `monocryst.py`. -/
def make_sic_polytype_lattice (symbols : String × String) (a h : ℚ)
    (polytype : String) : CrystalLattice :=
  let ch := generate_polytype a h polytype
  make_lattice ch.1 ch.2
    [(symbols.1, 0, 0, 0),
     (symbols.2, 0, 0, (3/4) / (polytype.length : ℚ))]

/-- `make_c_hexagonal_lattice` of `monocryst.py` (both atoms use the first
symbol, exactly as in the source). -/
def make_c_hexagonal_lattice (symbol : String) (a h : ℚ)
    (polytype : String) : CrystalLattice :=
  let ch := generate_polytype a h polytype
  make_lattice ch.1 ch.2
    [(symbol, 0, 0, 0), (symbol, 0, 0, (3/4) / (polytype.length : ℚ))]

/-- `make_mg_hexagonal_lattice` of `monocryst.py` (identical body to the
carbon variant in the source). -/
def make_mg_hexagonal_lattice (symbol : String) (a h : ℚ)
    (polytype : String) : CrystalLattice :=
  let ch := generate_polytype a h polytype
  make_lattice ch.1 ch.2
    [(symbol, 0, 0, 0), (symbol, 0, 0, (3/4) / (polytype.length : ℚ))]

/-- Prefix test on character lists (Python `str.startswith` over the
characters of a string). -/
def isPrefixOfChars : List Char → List Char → Bool
  | [], _ => true
  | _ :: _, [] => false
  | a :: as, b :: bs => a == b && isPrefixOfChars as bs

/-- Suffix test on character lists (Python `str.endswith`). -/
def isSuffixChars (n l : List Char) : Bool :=
  isPrefixOfChars n.reverse l.reverse

/-- Contiguous-substring test on character lists (Python `in` on
strings). -/
def containsChars (needle : List Char) : List Char → Bool
  | [] => isPrefixOfChars needle []
  | c :: tl => isPrefixOfChars needle (c :: tl) || containsChars needle tl

/-- ASCII lowercase table used by `strLower`. -/
def lowerPairs : List (Char × Char) :=
  [('A', 'a'), ('B', 'b'), ('C', 'c'), ('D', 'd'), ('E', 'e'), ('F', 'f'),
   ('G', 'g'), ('H', 'h'), ('I', 'i'), ('J', 'j'), ('K', 'k'), ('L', 'l'),
   ('M', 'm'), ('N', 'n'), ('O', 'o'), ('P', 'p'), ('Q', 'q'), ('R', 'r'),
   ('S', 's'), ('T', 't'), ('U', 'u'), ('V', 'v'), ('W', 'w'), ('X', 'x'),
   ('Y', 'y'), ('Z', 'z')]

/-- Lowercase one character (ASCII letters only, as Python's `str.lower`
behaves on the identifiers this program handles). -/
def lowerChar (c : Char) : Char :=
  ((lowerPairs.find? (fun p => p.1 == c)).map Prod.snd).getD c

/-- Python `str.lower`. -/
def strLower (s : String) : String := ⟨s.data.map lowerChar⟩

/-- Python `name.endswith(".cif")`. -/
def endsWithCif (s : String) : Bool :=
  isSuffixChars ".cif".data s.data

/-- Result of `get_named_lattice`: either a catalog lattice or a delegation
to the CIF loader. -/
inductive LatticeResult
  | lat (l : CrystalLattice)
  | cifFile (filename : String)
deriving DecidableEq

/-- Modelled from the spec: `make_lattice_from_cif` delegates to the
external `gemmi` library ("CIF ingestion: external library maps a
crystallographic-information file to a UnitCell + flat site list"); the
embedding only records the delegation. -/
def make_lattice_from_cif (filename : String) : LatticeResult :=
  .cifFile filename

/-- The name→factory dispatch of `get_named_lattice`, applied after the
source has lowercased the name (every branch in source order, including the
`sic:` stacking-sequence prefix family). -/
def dispatchCatalog (name : String) : Except String LatticeResult :=
  if name = "cu" then .ok (.lat (make_fcc_lattice "Cu" (3615/1000)))
  else if name = "al" then .ok (.lat (make_fcc_lattice "Al" (4041/1000)))
  else if name = "ag" then .ok (.lat (make_fcc_lattice "Ag" (409/100)))
  else if name = "ni" then .ok (.lat (make_fcc_lattice "Ni" (352/100)))
  else if name = "pt" then .ok (.lat (make_fcc_lattice "Pt" (392/100)))
  else if name = "fe" then .ok (.lat (make_bcc_lattice "Fe" (287/100)))
  else if name = "nb" then .ok (.lat (make_bcc_lattice "Nb" (3308/1000)))
  else if name = "w" then .ok (.lat (make_bcc_lattice "W" (3165/1000)))
  else if name = "po" then
    .ok (.lat (make_simple_cubic_lattice "Po" (335/100)))
  else if name = "nacl" then
    .ok (.lat (make_nacl_lattice ("Na", "Cl") (564/100)))
  else if name = "niti" then
    .ok (.lat (make_niti_lattice ("Ni", "Ti") (3008/1000)))
  else if name = "cdte" then
    .ok (.lat (make_zincblende2_lattice ("Cd", "Te") (4321/1000)))
  else if name = "cuznges" then
    .ok (.lat (make_kesterite_structure ("Cu", "Zn", "Ge", "S")
      (5358/1000) (5358/1000) (10641/1000)))
  else if name = "cuznsnse" then
    .ok (.lat (make_stannite_structure ("Cu", "Zn", "Ge", "S")
      (5358/1000) (5358/1000) (10641/1000)))
  else if name = "graphine" then
    .ok (.lat (make_c_hexagonal_lattice "C" (307/100) (252/100) "ABABC"))
  else if name = "mg" then
    .ok (.lat (make_mg_hexagonal_lattice "Mg" (3183/1000) (206/100) "ABAB"))
  else if name = "crnb" then
    .ok (.lat (make_crnb_lattice ("Cr", "Nb") (65/10)))
  else if name = "nbo" then
    .ok (.lat (make_nbo_lattice ("Nb", "O") (332/100)))
  else if name = "tial" then
    .ok (.lat (make_tial_lattice ("Ti", "Al") 4 4 4))
  else if name = "sic" then
    .ok (.lat (make_zincblende_lattice ("Si", "C") (43210368/10000000)))
  else if name = "si" then .ok (.lat (make_diamond_lattice "Si" (543/100)))
  else if name = "diamond" then
    .ok (.lat (make_diamond_lattice "C" (3567/1000)))
  else if isPrefixOfChars "sic:".data name.data then
    .ok (.lat (make_sic_polytype_lattice ("Si", "C") (3073/1000) (252/100)
      ⟨name.data.drop 4⟩))
  else if name = "sn" then
    .ok (.lat (make_bct_lattice "Sn" (583/100) (318/100)))
  else .error ("Unknown lattice: " ++ name)

/-- `get_named_lattice` of `monocryst.py`: a trailing `.cif` (checked on
the original, un-lowercased name) goes to the CIF loader, everything else
is lowercased and dispatched through the catalog; an unmatched name raises
`ValueError("Unknown lattice: %s" % name)` with the lowercased name bound
to `name` at that point. -/
def get_named_lattice (name : String) : Except String LatticeResult :=
  if endsWithCif name then .ok (make_lattice_from_cif name)
  else dispatchCatalog (strLower name)

/-- The disjunction of every branch condition of `dispatchCatalog`: the
lowercased names the catalog recognises. -/
def matchesCatalog (name : String) : Prop :=
  name = "cu" ∨ name = "al" ∨ name = "ag" ∨ name = "ni" ∨ name = "pt" ∨
  name = "fe" ∨ name = "nb" ∨ name = "w" ∨ name = "po" ∨ name = "nacl" ∨
  name = "niti" ∨ name = "cdte" ∨ name = "cuznges" ∨ name = "cuznsnse" ∨
  name = "graphine" ∨ name = "mg" ∨ name = "crnb" ∨ name = "nbo" ∨
  name = "tial" ∨ name = "sic" ∨ name = "si" ∨ name = "diamond" ∨
  isPrefixOfChars "sic:".data name.data = true ∨ name = "sn"

instance (name : String) : Decidable (matchesCatalog name) := by
  unfold matchesCatalog; infer_instance

/-- Componentwise strict comparison, numpy `(a < b).all()`. -/
def vltB (a b : Vec3) : Bool :=
  decide (a.x < b.x) && decide (a.y < b.y) && decide (a.z < b.z)

/-- Componentwise non-strict comparison, numpy `(a <= b).all()`. -/
def vleB (a b : Vec3) : Bool :=
  decide (a.x ≤ b.x) && decide (a.y ≤ b.y) && decide (a.z ≤ b.z)

/-- The candidate loop of `OrthorhombicPbcModel._do_gen_atoms`: for every
node replica `(node, abs_pos)` and every atom of the node, map
`abs_pos + atom.pos` through the cell's fractional→absolute matrix and
append the atom exactly when `(vmin < xyz).all() and (xyz <= vmax).all()`.
The replica enumeration (`get_all_nodes`) is a parameter here, as in the
source it is delegated to the `FreshModel` collaborator. -/
def do_gen_atoms (m : Mat3) (nodeReps : List (Node × Vec3))
    (vmin vmax : Vec3) : List Atom :=
  nodeReps.flatMap (fun p =>
    p.1.atoms_in_node.filterMap (fun a =>
      let xyz := vecMulMat (p.2 + a.pos) m
      if vltB vmin xyz && vleB xyz vmax then some ⟨a.name, xyz⟩ else none))

/-- The Python `upper` argument of `generate_atoms`: dynamically typed, so
besides the three recognised states it can carry any other value. -/
inductive PyUpper
  | pyTrue
  | pyFalse
  | pyNone
  | pyOther (v : String)
deriving DecidableEq

/-- `RotatedMonocrystal.get_box_to_fill`.  The source reads `self.dim`
(here `self_dim`) and ignores its `dim` parameter; both are kept to mirror
the signature.  `eps = 0.001`; the `assert upper in (True, False, None)`
becomes the error case; `if z_margin:` is Python truthiness, i.e.
`z_margin ≠ 0`. -/
def get_box_to_fill (self_dim dim : Vec3) (upper : PyUpper) (z_margin : ℚ) :
    Except String (Vec3 × Vec3) :=
  let eps : ℚ := 1/1000
  let vmin : Vec3 := ⟨-self_dim.x / 2 + eps, -self_dim.y / 2 + eps,
                      -self_dim.z / 2 + eps⟩
  let vmax : Vec3 := ⟨self_dim.x / 2 + eps, self_dim.y / 2 + eps,
                      self_dim.z / 2 + eps⟩
  match upper with
  | .pyTrue =>
      .ok (⟨vmin.x, vmin.y, eps⟩,
           if z_margin ≠ 0 then ⟨vmax.x, vmax.y, vmax.z - z_margin / 2⟩
           else vmax)
  | .pyFalse =>
      .ok ((if z_margin ≠ 0 then ⟨vmin.x, vmin.y, vmin.z + z_margin / 2⟩
            else vmin),
           ⟨vmax.x, vmax.y, eps⟩)
  | .pyNone => .ok (vmin, vmax)
  | .pyOther _ => .error "AssertionError: upper in (True, False, None)"

/-- The integers `lo, lo+1, …, hi`. -/
def intRange (lo hi : Int) : List Int :=
  (List.range (hi + 1 - lo).toNat).map (fun k => lo + k)

/-- Modelled from the spec: the replica ("scope") enumeration of
`graingen.FreshModel.compute_scope` / `get_all_nodes` is not under `src/`.
Per the spec it returns, for a unit cell and a bounding region, the node
replicas that might contribute atoms, "padded by at least one cell in every
direction relative to a naive box/cell-size division"; extra replicas are
harmless ("the core tolerates extra replicas … but not missing ones").
For the diagonal cells used by the claims, the naive division along an
axis with cell length `a` spans `⌊vmin/a⌋ … ⌈vmax/a⌉`; one cell of padding
is added on each side. -/
def computeScopeReps (cell : UnitCell) (vmin vmax : Vec3) :
    List (Int × Int × Int) :=
  let lohi : ℚ → ℚ → ℚ → Int × Int := fun a lo hi =>
    (⌊lo / a⌋ - 1, ⌈hi / a⌉ + 1)
  let xr := lohi cell.M_1.r1.x vmin.x vmax.x
  let yr := lohi cell.M_1.r2.y vmin.y vmax.y
  let zr := lohi cell.M_1.r3.z vmin.z vmax.z
  (intRange xr.1 xr.2).flatMap (fun i =>
    (intRange yr.1 yr.2).flatMap (fun j =>
      (intRange zr.1 zr.2).map (fun k => (i, j, k))))

/-- Modelled from the spec: `get_all_nodes` pairs every node of the lattice
with its fractional position shifted by each integer replica offset of the
scope. -/
def allNodeReps (nodes : List Node) (reps : List (Int × Int × Int)) :
    List (Node × Vec3) :=
  reps.flatMap (fun r =>
    nodes.map (fun nd =>
      (nd, nd.pos + ⟨(r.1 : ℚ), (r.2.1 : ℚ), (r.2.2 : ℚ)⟩)))

/-- A heap of unit cells; models Python object identity for the cell shared
between a lattice and the model built from it.  `next` is the first unused
reference. -/
structure Store where
  mem : Nat → UnitCell
  next : Nat

/-- Write one cell of the store in place. -/
def storeSet (s : Store) (i : Nat) (c : UnitCell) : Store :=
  ⟨fun j => if j = i then c else s.mem j, s.next⟩

/-- A lattice whose unit cell lives in the store (the aliasing-aware view
of `CrystalLattice` used by the stateful builder and driver). -/
structure StoredLattice where
  cellRef : Nat
  nodes : List Node
deriving DecidableEq

/-- Modelled from the spec: Python's `copy.deepcopy` on a lattice — "the
lattice instance is deep-copied before being handed to the Builder" —
allocates a fresh unit cell holding the same value, so the copy shares no
mutable state with the original. -/
def deepcopyLattice (s : Store) (lat : StoredLattice) :
    Store × StoredLattice :=
  (⟨fun j => if j = s.next then s.mem lat.cellRef else s.mem j, s.next + 1⟩,
   ⟨s.next, lat.nodes⟩)

/-- The mutable state of a `RotatedMonocrystal`: its lattice's nodes, the
store reference of its (shared) unit cell, requested dimensions, optional
rotation matrix, and the atom list built so far. -/
structure RotatedMonocrystal where
  cellRef : Nat
  nodes : List Node
  dim : Vec3
  rot_mat : Option Mat3
  atoms : List Atom

/-- `RotatedMonocrystal.generate_atoms`, in source order: clear
`self.atoms`; compute the box bounds (whose assertion may fail); if a
rotation matrix is present, rotate the shared unit cell in place (again on
every call); run `_do_gen_atoms` over the bounds; return the atom list. -/
def generate_atoms (s : Store) (cfg : RotatedMonocrystal) (upper : PyUpper)
    (z_margin : ℚ) :
    Store × RotatedMonocrystal × Except String (List Atom) :=
  let cfg0 := { cfg with atoms := [] }
  match get_box_to_fill cfg.dim cfg.dim upper z_margin with
  | .error e => (s, cfg0, .error e)
  | .ok b =>
      let s1 := match cfg.rot_mat with
        | some r => storeSet s cfg.cellRef (rotateCell r (s.mem cfg.cellRef))
        | none => s
      let cell := s1.mem cfg.cellRef
      let reps := computeScopeReps cell b.1 b.2
      let atoms := do_gen_atoms cell.M_1 (allNodeReps cfg.nodes reps) b.1 b.2
      (s1, { cfg0 with atoms := atoms }, .ok atoms)

/-- `n` successive `generate_atoms` calls with identical arguments
(`upper=None`, `z_margin=0`) on the same model object. -/
def genIter : Nat → Store × RotatedMonocrystal → Store × RotatedMonocrystal
  | 0, sc => sc
  | n + 1, sc =>
      let r := generate_atoms sc.1 sc.2 .pyNone 0
      genIter n (r.1, r.2.1)

/-- Modelled from the spec: `UnitCell.get_orthorhombic_supercell` of `latt`
is not under `src/` — "the smallest periodic box, in absolute length units,
compatible with the lattice's own symmetry"; for the diagonal cells used
here, the three diagonal entries of the transform. -/
def get_orthorhombic_supercell (c : UnitCell) : Vec3 :=
  ⟨c.M_1.r1.x, c.M_1.r2.y, c.M_1.r3.z⟩

/-- Modelled from the spec: `rotmat.round_to_multiplicity` is not under
`src/` — "round each requested dimension up to the nearest multiple of
that repeat length". -/
def round_to_multiplicity (m d : ℚ) : ℚ := m * ⌈d / m⌉

/-- The `mono` driver of `monocryst.py`: resolve the requested minimal
dimensions (nm, hence the factor 10) to multiples of the lattice's
orthorhombic repeat, deep-copy the lattice, build a `RotatedMonocrystal`
with `rot_mat=None`, and run one full `generate_atoms`. -/
def mono (s : Store) (lattice : StoredLattice) (nx ny nz : ℚ) :
    Store × RotatedMonocrystal :=
  let min_dim := get_orthorhombic_supercell (s.mem lattice.cellRef)
  let dim : Vec3 := ⟨round_to_multiplicity min_dim.x (10 * nx),
                     round_to_multiplicity min_dim.y (10 * ny),
                     round_to_multiplicity min_dim.z (10 * nz)⟩
  let copied := deepcopyLattice s lattice
  let cfg : RotatedMonocrystal :=
    ⟨copied.2.cellRef, copied.2.nodes, dim, none, []⟩
  let r := generate_atoms copied.1 cfg .pyNone 0
  (r.1, r.2.1)

instance : DecidableEq (Except String LatticeResult) := fun x y =>
  match x, y with
  | .ok a, .ok b =>
      if h : a = b then isTrue (by rw [h]) else isFalse (by simp [h])
  | .error a, .error b =>
      if h : a = b then isTrue (by rw [h]) else isFalse (by simp [h])
  | .ok _, .error _ => isFalse (by simp)
  | .error _, .ok _ => isFalse (by simp)

/-- The NaCl lattice of the concrete scenario:
`make_nacl_lattice(("Na","Cl"), a=5.64)`. -/
def naclLattice : CrystalLattice := make_nacl_lattice ("Na", "Cl") (564/100)

/-- A one-cell store holding the NaCl unit cell at reference 0. -/
def naclStore : Store := ⟨fun _ => naclLattice.unit_cell, 1⟩

/-- The `RotatedMonocrystal` state for the NaCl scenario: one unit cell of
box `(5.64, 5.64, 5.64)`, no rotation. -/
def naclCfg : RotatedMonocrystal :=
  ⟨0, naclLattice.nodes, ⟨564/100, 564/100, 564/100⟩, none, []⟩

/-- The atom list held by the model after the NaCl generation run. -/
def naclAtoms : List Atom :=
  ((generate_atoms naclStore naclCfg .pyNone 0).2.1).atoms

unseal Rat.add Rat.mul Rat.sub Rat.inv

theorem vltB_eq_true_iff (a b : Vec3) :
    vltB a b = true ↔ a.x < b.x ∧ a.y < b.y ∧ a.z < b.z := by
  simp [vltB, Bool.and_eq_true, decide_eq_true_eq, and_assoc]

theorem vleB_eq_true_iff (a b : Vec3) :
    vleB a b = true ↔ a.x ≤ b.x ∧ a.y ≤ b.y ∧ a.z ≤ b.z := by
  simp [vleB, Bool.and_eq_true, decide_eq_true_eq, and_assoc]

theorem mem_do_gen_atoms (m : Mat3) (reps : List (Node × Vec3))
    (vmin vmax : Vec3) (q : Atom) :
    q ∈ do_gen_atoms m reps vmin vmax ↔
      ∃ p ∈ reps, ∃ a ∈ p.1.atoms_in_node,
        (vltB vmin (vecMulMat (p.2 + a.pos) m) = true ∧
         vleB (vecMulMat (p.2 + a.pos) m) vmax = true) ∧
        q = ⟨a.name, vecMulMat (p.2 + a.pos) m⟩ := by
  simp only [do_gen_atoms, List.mem_flatMap, List.mem_filterMap,
    Option.ite_none_right_eq_some, Option.some.injEq, Bool.and_eq_true]
  constructor
  · rintro ⟨p, hp, a, ha, ⟨h1, h2⟩, he⟩
    exact ⟨p, hp, a, ha, ⟨h1, h2⟩, he.symm⟩
  · rintro ⟨p, hp, a, ha, ⟨h1, h2⟩, he⟩
    exact ⟨p, hp, a, ha, ⟨h1, h2⟩, he.symm⟩

/-- C1: a candidate atom of the Box Filler — replica node position plus
atom offset, mapped through the unit cell's fractional→absolute matrix —
is appended to the result list if and only if, componentwise,
`vmin < position` and `position ≤ vmax`; a position failing the half-open
test on any axis is excluded. -/
theorem do_gen_atoms_mem_iff (m : Mat3) (reps : List (Node × Vec3))
    (vmin vmax : Vec3) (s : String) (pos : Vec3) :
    (Atom.mk s pos) ∈ do_gen_atoms m reps vmin vmax ↔
      ∃ p ∈ reps, ∃ a ∈ p.1.atoms_in_node, a.name = s ∧
        pos = vecMulMat (p.2 + a.pos) m ∧
        (vmin.x < pos.x ∧ vmin.y < pos.y ∧ vmin.z < pos.z) ∧
        (pos.x ≤ vmax.x ∧ pos.y ≤ vmax.y ∧ pos.z ≤ vmax.z) := by
  rw [mem_do_gen_atoms]
  constructor
  · rintro ⟨p, hp, a, ha, ⟨h1, h2⟩, he⟩
    obtain ⟨hs, hpos⟩ : a.name = s ∧ pos = vecMulMat (p.2 + a.pos) m := by
      have := congrArg Atom.name he
      have h2' := congrArg Atom.pos he
      exact ⟨this.symm, h2'⟩
    refine ⟨p, hp, a, ha, hs, hpos, ?_, ?_⟩
    · rw [hpos]; exact (vltB_eq_true_iff _ _).1 h1
    · rw [hpos]; exact (vleB_eq_true_iff _ _).1 h2
  · rintro ⟨p, hp, a, ha, hs, hpos, hlt, hle⟩
    refine ⟨p, hp, a, ha, ⟨?_, ?_⟩, ?_⟩
    · exact (vltB_eq_true_iff _ _).2 (hpos ▸ hlt)
    · exact (vleB_eq_true_iff _ _).2 (hpos ▸ hle)
    · rw [← hs, ← hpos]

/-- C2: with `upper=None` (for any `z_margin`), `get_box_to_fill` returns
`vmin = -dim/2 + 0.001` and `vmax = dim/2 + 0.001` on every axis — the
requested box shifted off the origin by the fixed epsilon `0.001` on all
three axes.  (The source reads the requested dimensions from `self.dim`
and ignores its `dim` parameter; both are quantified here.) -/
theorem get_box_to_fill_full_box (self_dim dim : Vec3) (z_margin : ℚ) :
    get_box_to_fill self_dim dim .pyNone z_margin =
      .ok (⟨-self_dim.x / 2 + 1/1000, -self_dim.y / 2 + 1/1000,
            -self_dim.z / 2 + 1/1000⟩,
           ⟨self_dim.x / 2 + 1/1000, self_dim.y / 2 + 1/1000,
            self_dim.z / 2 + 1/1000⟩) := rfl

/-- C3: with `upper=True`, `get_box_to_fill` keeps the full-box bounds
except that `vmin.z` is raised to the epsilon `0.001` and, when `z_margin`
is nonzero, `vmax.z` is reduced by `z_margin/2`; with `upper=False` it
keeps the full-box bounds except that `vmax.z` is lowered to the epsilon
and, when `z_margin` is nonzero, `vmin.z` is increased by `z_margin/2`;
the first two axes are unchanged in both cases. -/
theorem get_box_to_fill_half_boxes (self_dim dim : Vec3) (z_margin : ℚ) :
    get_box_to_fill self_dim dim .pyTrue z_margin =
      .ok (⟨-self_dim.x / 2 + 1/1000, -self_dim.y / 2 + 1/1000, 1/1000⟩,
           ⟨self_dim.x / 2 + 1/1000, self_dim.y / 2 + 1/1000,
            if z_margin ≠ 0 then self_dim.z / 2 + 1/1000 - z_margin / 2
            else self_dim.z / 2 + 1/1000⟩) ∧
    get_box_to_fill self_dim dim .pyFalse z_margin =
      .ok (⟨-self_dim.x / 2 + 1/1000, -self_dim.y / 2 + 1/1000,
            if z_margin ≠ 0 then -self_dim.z / 2 + 1/1000 + z_margin / 2
            else -self_dim.z / 2 + 1/1000⟩,
           ⟨self_dim.x / 2 + 1/1000, self_dim.y / 2 + 1/1000, 1/1000⟩) := by
  constructor <;>
    · by_cases h : z_margin ≠ 0 <;> simp [get_box_to_fill, h]

set_option maxRecDepth 100000

/-- C4: for the lattice `make_nacl_lattice(("Na","Cl"), a=5.64)` filled
into one unit cell `(5.64, 5.64, 5.64)`, the generated atom list contains
exactly 4 atoms of species "Na" and exactly 4 of species "Cl". -/
theorem nacl_unit_cell_counts :
    naclAtoms.countP (fun a => a.name == "Na") = 4 ∧
    naclAtoms.countP (fun a => a.name == "Cl") = 4 := by
  constructor <;> decide

/-- C6: for any `upper` value other than `True`, `False` or `None`,
`generate_atoms` fails on the assertion in `get_box_to_fill` before any
atom is computed or appended: the store is untouched, the model's atom
list is the empty list (never partially filled), and no atom list is
returned. -/
theorem generate_atoms_invalid_upper (s : Store) (cfg : RotatedMonocrystal)
    (v : String) (z_margin : ℚ) :
    generate_atoms s cfg (.pyOther v) z_margin =
      (s, { cfg with atoms := [] },
       .error "AssertionError: upper in (True, False, None)") ∧
    ((generate_atoms s cfg (.pyOther v) z_margin).2.1).atoms = [] :=
  ⟨rfl, rfl⟩

/-- C5: over any candidate enumeration, merging the atoms generated for
the `upper=True` and `upper=False` half boxes (zero margin) of the same
dimensions yields exactly the atom set of the single `upper=None` run,
and the two half-box sets are disjoint. -/
theorem generation_halves_partition (m : Mat3) (reps : List (Node × Vec3))
    (dims : Vec3) (bN bT bF : Vec3 × Vec3)
    (hN : get_box_to_fill dims dims .pyNone 0 = .ok bN)
    (hT : get_box_to_fill dims dims .pyTrue 0 = .ok bT)
    (hF : get_box_to_fill dims dims .pyFalse 0 = .ok bF)
    (q : Atom) :
    (q ∈ do_gen_atoms m reps bN.1 bN.2 ↔
      q ∈ do_gen_atoms m reps bT.1 bT.2 ∨ q ∈ do_gen_atoms m reps bF.1 bF.2) ∧
    ¬(q ∈ do_gen_atoms m reps bT.1 bT.2 ∧
      q ∈ do_gen_atoms m reps bF.1 bF.2) := by
  rw [show get_box_to_fill dims dims .pyNone 0 =
      .ok (⟨-dims.x / 2 + 1/1000, -dims.y / 2 + 1/1000, -dims.z / 2 + 1/1000⟩,
           ⟨dims.x / 2 + 1/1000, dims.y / 2 + 1/1000, dims.z / 2 + 1/1000⟩)
    from rfl] at hN
  rw [show get_box_to_fill dims dims .pyTrue 0 =
      .ok (⟨-dims.x / 2 + 1/1000, -dims.y / 2 + 1/1000, 1/1000⟩,
           ⟨dims.x / 2 + 1/1000, dims.y / 2 + 1/1000, dims.z / 2 + 1/1000⟩)
    from by norm_num [get_box_to_fill]] at hT
  rw [show get_box_to_fill dims dims .pyFalse 0 =
      .ok (⟨-dims.x / 2 + 1/1000, -dims.y / 2 + 1/1000, -dims.z / 2 + 1/1000⟩,
           ⟨dims.x / 2 + 1/1000, dims.y / 2 + 1/1000, 1/1000⟩)
    from by norm_num [get_box_to_fill]] at hF
  injection hN with hN; subst hN
  injection hT with hT; subst hT
  injection hF with hF; subst hF
  constructor
  · constructor
    · intro hq
      obtain ⟨p, hp, a, ha, ⟨h1, h2⟩, he⟩ := (mem_do_gen_atoms _ _ _ _ _).1 hq
      obtain ⟨h1x, h1y, h1z⟩ := (vltB_eq_true_iff _ _).1 h1
      obtain ⟨h2x, h2y, h2z⟩ := (vleB_eq_true_iff _ _).1 h2
      dsimp only at h1x h1y h1z h2x h2y h2z
      by_cases hz : (vecMulMat (p.2 + a.pos) m).z ≤ 1/1000
      · refine Or.inr ((mem_do_gen_atoms _ _ _ _ _).2
          ⟨p, hp, a, ha, ⟨(vltB_eq_true_iff _ _).2 ⟨h1x, h1y, h1z⟩,
            (vleB_eq_true_iff _ _).2 ⟨h2x, h2y, hz⟩⟩, he⟩)
      · refine Or.inl ((mem_do_gen_atoms _ _ _ _ _).2
          ⟨p, hp, a, ha, ⟨(vltB_eq_true_iff _ _).2 ⟨h1x, h1y, not_le.1 hz⟩,
            (vleB_eq_true_iff _ _).2 ⟨h2x, h2y, h2z⟩⟩, he⟩)
    · rintro (hq | hq) <;>
        obtain ⟨p, hp, a, ha, ⟨h1, h2⟩, he⟩ := (mem_do_gen_atoms _ _ _ _ _).1 hq <;>
        obtain ⟨h1x, h1y, h1z⟩ := (vltB_eq_true_iff _ _).1 h1 <;>
        obtain ⟨h2x, h2y, h2z⟩ := (vleB_eq_true_iff _ _).1 h2 <;>
        dsimp only at h1x h1y h1z h2x h2y h2z <;>
        refine (mem_do_gen_atoms _ _ _ _ _).2
          ⟨p, hp, a, ha, ⟨(vltB_eq_true_iff _ _).2 ⟨h1x, h1y, by linarith⟩,
            (vleB_eq_true_iff _ _).2 ⟨h2x, h2y, by linarith⟩⟩, he⟩
  · rintro ⟨hqT, hqF⟩
    obtain ⟨p, hp, a, ha, ⟨h1, -⟩, he⟩ := (mem_do_gen_atoms _ _ _ _ _).1 hqT
    obtain ⟨p', hp', a', ha', ⟨-, h2'⟩, he'⟩ := (mem_do_gen_atoms _ _ _ _ _).1 hqF
    have hzT : (1:ℚ)/1000 < (vecMulMat (p.2 + a.pos) m).z :=
      ((vltB_eq_true_iff _ _).1 h1).2.2
    have hzF : (vecMulMat (p'.2 + a'.pos) m).z ≤ 1/1000 :=
      ((vleB_eq_true_iff _ _).1 h2').2.2
    have hpos : (vecMulMat (p.2 + a.pos) m) = (vecMulMat (p'.2 + a'.pos) m) := by
      have e1 := congrArg Atom.pos he
      have e2 := congrArg Atom.pos he'
      dsimp only at e1 e2
      rw [e1] at e2
      exact e2
    rw [hpos] at hzT
    linarith

/-- Witness for C5: the partition property instantiated at a concrete
identity cell, a single decorated node, dimensions `(2,2,2)` and the atom
at the origin. -/
theorem generation_halves_partition_witness :
    get_box_to_fill ⟨2, 2, 2⟩ ⟨2, 2, 2⟩ .pyNone 0 =
      .ok (⟨-999/1000, -999/1000, -999/1000⟩,
           ⟨1001/1000, 1001/1000, 1001/1000⟩) ∧
    get_box_to_fill ⟨2, 2, 2⟩ ⟨2, 2, 2⟩ .pyTrue 0 =
      .ok (⟨-999/1000, -999/1000, 1/1000⟩,
           ⟨1001/1000, 1001/1000, 1001/1000⟩) ∧
    get_box_to_fill ⟨2, 2, 2⟩ ⟨2, 2, 2⟩ .pyFalse 0 =
      .ok (⟨-999/1000, -999/1000, -999/1000⟩,
           ⟨1001/1000, 1001/1000, 1/1000⟩) ∧
    ((Atom.mk "X" ⟨0, 0, 0⟩ ∈
        do_gen_atoms ⟨⟨1, 0, 0⟩, ⟨0, 1, 0⟩, ⟨0, 0, 1⟩⟩
          [(⟨⟨0, 0, 0⟩, [⟨"X", ⟨0, 0, 0⟩⟩]⟩, ⟨0, 0, 0⟩)]
          ⟨-999/1000, -999/1000, -999/1000⟩
          ⟨1001/1000, 1001/1000, 1001/1000⟩ ↔
      Atom.mk "X" ⟨0, 0, 0⟩ ∈
        do_gen_atoms ⟨⟨1, 0, 0⟩, ⟨0, 1, 0⟩, ⟨0, 0, 1⟩⟩
          [(⟨⟨0, 0, 0⟩, [⟨"X", ⟨0, 0, 0⟩⟩]⟩, ⟨0, 0, 0⟩)]
          ⟨-999/1000, -999/1000, 1/1000⟩
          ⟨1001/1000, 1001/1000, 1001/1000⟩ ∨
      Atom.mk "X" ⟨0, 0, 0⟩ ∈
        do_gen_atoms ⟨⟨1, 0, 0⟩, ⟨0, 1, 0⟩, ⟨0, 0, 1⟩⟩
          [(⟨⟨0, 0, 0⟩, [⟨"X", ⟨0, 0, 0⟩⟩]⟩, ⟨0, 0, 0⟩)]
          ⟨-999/1000, -999/1000, -999/1000⟩
          ⟨1001/1000, 1001/1000, 1/1000⟩) ∧
    ¬(Atom.mk "X" ⟨0, 0, 0⟩ ∈
        do_gen_atoms ⟨⟨1, 0, 0⟩, ⟨0, 1, 0⟩, ⟨0, 0, 1⟩⟩
          [(⟨⟨0, 0, 0⟩, [⟨"X", ⟨0, 0, 0⟩⟩]⟩, ⟨0, 0, 0⟩)]
          ⟨-999/1000, -999/1000, 1/1000⟩
          ⟨1001/1000, 1001/1000, 1001/1000⟩ ∧
      Atom.mk "X" ⟨0, 0, 0⟩ ∈
        do_gen_atoms ⟨⟨1, 0, 0⟩, ⟨0, 1, 0⟩, ⟨0, 0, 1⟩⟩
          [(⟨⟨0, 0, 0⟩, [⟨"X", ⟨0, 0, 0⟩⟩]⟩, ⟨0, 0, 0⟩)]
          ⟨-999/1000, -999/1000, -999/1000⟩
          ⟨1001/1000, 1001/1000, 1/1000⟩)) :=
  ⟨rfl, rfl, rfl,
   generation_halves_partition ⟨⟨1, 0, 0⟩, ⟨0, 1, 0⟩, ⟨0, 0, 1⟩⟩
     [(⟨⟨0, 0, 0⟩, [⟨"X", ⟨0, 0, 0⟩⟩]⟩, ⟨0, 0, 0⟩)] ⟨2, 2, 2⟩
     (⟨-999/1000, -999/1000, -999/1000⟩, ⟨1001/1000, 1001/1000, 1001/1000⟩)
     (⟨-999/1000, -999/1000, 1/1000⟩, ⟨1001/1000, 1001/1000, 1001/1000⟩)
     (⟨-999/1000, -999/1000, -999/1000⟩, ⟨1001/1000, 1001/1000, 1/1000⟩)
     rfl rfl rfl (Atom.mk "X" ⟨0, 0, 0⟩)⟩

theorem isPrefixOfChars_refl : ∀ l : List Char, isPrefixOfChars l l = true
  | [] => rfl
  | a :: as => by simp [isPrefixOfChars, isPrefixOfChars_refl as]

theorem containsChars_append_self :
    ∀ pre n : List Char, containsChars n (pre ++ n) = true
  | [], n => by
      cases n with
      | nil => rfl
      | cons c tl => simp [containsChars, isPrefixOfChars_refl]
  | c :: pre, n => by
      simp [containsChars, containsChars_append_self pre n]

theorem isPrefixOfChars_map (f : Char → Char) :
    ∀ n l : List Char, isPrefixOfChars n l = true →
      isPrefixOfChars (n.map f) (l.map f) = true
  | [], _, _ => rfl
  | _ :: _, [], h => by simp [isPrefixOfChars] at h
  | a :: as, b :: bs, h => by
      simp only [isPrefixOfChars, Bool.and_eq_true, beq_iff_eq] at h
      simp only [List.map_cons, isPrefixOfChars, Bool.and_eq_true, beq_iff_eq]
      exact ⟨by rw [h.1], isPrefixOfChars_map f as bs h.2⟩

theorem lowerChar_idem (c : Char) : lowerChar (lowerChar c) = lowerChar c := by
  rcases hf : lowerPairs.find? (fun p => p.1 == c) with - | p
  · have h1 : lowerChar c = c := by simp [lowerChar, hf]
    rw [h1, h1]
  · have h1 : lowerChar c = p.2 := by simp [lowerChar, hf]
    have hmem : p ∈ lowerPairs := List.mem_of_find?_eq_some hf
    rw [h1]
    fin_cases hmem <;> decide

theorem map_lowerChar_idem :
    ∀ l : List Char, (l.map lowerChar).map lowerChar = l.map lowerChar
  | [] => rfl
  | c :: tl => by
      simp [List.map_cons, lowerChar_idem c, map_lowerChar_idem tl]

theorem strLower_idem (s : String) : strLower (strLower s) = strLower s :=
  congrArg String.mk (map_lowerChar_idem s.data)

theorem endsWithCif_strLower (s : String) (h : endsWithCif s = true) :
    endsWithCif (strLower s) = true := by
  unfold endsWithCif isSuffixChars at h ⊢
  have h2 := isPrefixOfChars_map lowerChar _ _ h
  rw [show (".cif".data.reverse.map lowerChar) = ".cif".data.reverse
    from by decide] at h2
  rw [show ((strLower s).data.reverse) = s.data.reverse.map lowerChar
    from (List.map_reverse lowerChar s.data).symm]
  exact h2

theorem dispatchCatalog_unknown (name : String)
    (hm : ¬ matchesCatalog name) :
    dispatchCatalog name = .error ("Unknown lattice: " ++ name) := by
  simp only [matchesCatalog, not_or] at hm
  obtain ⟨h1, h2, h3, h4, h5, h6, h7, h8, h9, h10, h11, h12, h13, h14, h15,
    h16, h17, h18, h19, h20, h21, h22, h23, h24⟩ := hm
  unfold dispatchCatalog
  rw [if_neg h1, if_neg h2, if_neg h3, if_neg h4, if_neg h5, if_neg h6,
    if_neg h7, if_neg h8, if_neg h9, if_neg h10, if_neg h11, if_neg h12,
    if_neg h13, if_neg h14, if_neg h15, if_neg h16, if_neg h17, if_neg h18,
    if_neg h19, if_neg h20, if_neg h21, if_neg h22, if_neg h23, if_neg h24]

/-- Counterexample to C7 as stated: for the unknown name `"Xy"`, the error
message is `"Unknown lattice: xy"`, which does not contain the offending
identifier `"Xy"` (the source lowercases the name before building the
message). -/
theorem get_named_lattice_unknown_counterexample :
    get_named_lattice "Xy" = .error "Unknown lattice: xy" ∧
    containsChars "Xy".data "Unknown lattice: xy".data = false := by
  constructor <;> rfl

/-- C7 (amended): for every name not ending in `".cif"` whose lowercased
form matches no catalog entry, `get_named_lattice` fails with an error
whose message contains the lowercased form of the offending identifier,
and returns no lattice (no fallback to a default structure). -/
theorem get_named_lattice_unknown (name : String)
    (h1 : endsWithCif name = false)
    (h2 : ¬ matchesCatalog (strLower name)) :
    get_named_lattice name = .error ("Unknown lattice: " ++ strLower name) ∧
    containsChars (strLower name).data
      ("Unknown lattice: " ++ strLower name).data = true := by
  constructor
  · unfold get_named_lattice
    rw [h1]
    simp only [Bool.false_eq_true, if_false]
    exact dispatchCatalog_unknown (strLower name) h2
  · rw [String.data_append]
    exact containsChars_append_self _ _

/-- Witness for C7 (amended) at the concrete unknown name `"Qq"`. -/
theorem get_named_lattice_unknown_witness :
    endsWithCif "Qq" = false ∧ ¬ matchesCatalog (strLower "Qq") ∧
    (get_named_lattice "Qq" = .error ("Unknown lattice: " ++ strLower "Qq") ∧
     containsChars (strLower "Qq").data
       ("Unknown lattice: " ++ strLower "Qq").data = true) :=
  ⟨by decide, by decide, get_named_lattice_unknown "Qq" (by decide) (by decide)⟩

/-- Counterexample to C9 as stated: `"A.CIF"` does not end in `".cif"`
(the source's suffix check is case-sensitive), yet `get_named_lattice`
behaves differently on it than on its lowercased form: the original name
is reported as an unknown lattice, while the lowercased name `"a.cif"` is
routed to the CIF loader. -/
theorem get_named_lattice_case_counterexample :
    endsWithCif "A.CIF" = false ∧
    get_named_lattice "A.CIF" ≠ get_named_lattice (strLower "A.CIF") := by
  constructor
  · decide
  · decide

/-- C9 (amended): for every name whose lowercased form does not end in
`".cif"`, `get_named_lattice` on the name behaves exactly as on the
lowercased name — catalog lookup is case-insensitive. -/
theorem get_named_lattice_lower_eq (name : String)
    (h : endsWithCif (strLower name) = false) :
    get_named_lattice name = get_named_lattice (strLower name) := by
  have h1 : endsWithCif name = false := by
    cases hc : endsWithCif name with
    | false => rfl
    | true => rw [endsWithCif_strLower name hc] at h; exact absurd h (by simp)
  unfold get_named_lattice
  rw [h1, h]
  simp only [Bool.false_eq_true, if_false]
  rw [strLower_idem]

/-- Witness for C9 (amended) at the concrete catalog name `"NaCl"`. -/
theorem get_named_lattice_lower_eq_witness :
    endsWithCif (strLower "NaCl") = false ∧
    get_named_lattice "NaCl" = get_named_lattice (strLower "NaCl") :=
  ⟨by decide, get_named_lattice_lower_eq "NaCl" (by decide)⟩

theorem generate_atoms_rot_step (s : Store) (cfg : RotatedMonocrystal)
    (r : Mat3) (h : cfg.rot_mat = some r) :
    (generate_atoms s cfg .pyNone 0).1 =
      storeSet s cfg.cellRef (rotateCell r (s.mem cfg.cellRef)) ∧
    (generate_atoms s cfg .pyNone 0).2.1.cellRef = cfg.cellRef ∧
    (generate_atoms s cfg .pyNone 0).2.1.rot_mat = cfg.rot_mat := by
  unfold generate_atoms
  rw [h]
  exact ⟨rfl, rfl, rfl⟩

theorem genIter_state (r : Mat3) :
    ∀ (n : ℕ) (s : Store) (cfg : RotatedMonocrystal),
      cfg.rot_mat = some r →
      (genIter n (s, cfg)).2.cellRef = cfg.cellRef ∧
      (genIter n (s, cfg)).2.rot_mat = some r ∧
      ((genIter n (s, cfg)).1).mem cfg.cellRef =
        (rotateCell r)^[n] (s.mem cfg.cellRef)
  | 0, s, cfg, h => ⟨rfl, h, rfl⟩
  | n + 1, s, cfg, h => by
      obtain ⟨hs1, href, hrot⟩ := generate_atoms_rot_step s cfg r h
      have hrw : genIter (n + 1) (s, cfg) =
          genIter n ((generate_atoms s cfg .pyNone 0).1,
                     (generate_atoms s cfg .pyNone 0).2.1) := rfl
      have ih := genIter_state r n (generate_atoms s cfg .pyNone 0).1
        (generate_atoms s cfg .pyNone 0).2.1 (hrot.trans h)
      rw [hrw]
      refine ⟨ih.1.trans href, ih.2.1, ?_⟩
      rw [← href, ih.2.2, href, hs1]
      have hmem : (storeSet s cfg.cellRef
          (rotateCell r (s.mem cfg.cellRef))).mem cfg.cellRef =
          rotateCell r (s.mem cfg.cellRef) := by
        simp [storeSet]
      rw [hmem, ← Function.iterate_succ_apply]

/-- C10: when a `RotatedMonocrystal` carries a rotation matrix, every
`generate_atoms` call rotates the shared unit cell again, so after `n`
calls with identical arguments the stored cell is the `n`-fold rotation of
the initial cell — rotations compound instead of being applied once per
object. -/
theorem generate_atoms_rotation_compounds (s : Store)
    (cfg : RotatedMonocrystal) (r : Mat3) (n : ℕ)
    (h : cfg.rot_mat = some r) :
    ((genIter n (s, cfg)).1).mem cfg.cellRef =
      (rotateCell r)^[n] (s.mem cfg.cellRef) :=
  (genIter_state r n s cfg h).2.2

/-- Witness for C10: two successive calls on a model holding a 90°
rotation about the third axis leave the cell doubly rotated, and the
doubly rotated cell differs from the singly rotated one. -/
theorem generate_atoms_rotation_compounds_witness :
    ((genIter 2 ((⟨fun _ => CubicUnitCell 1, 1⟩ : Store),
        (⟨0, [], ⟨1, 1, 1⟩,
          some ⟨⟨0, 1, 0⟩, ⟨-1, 0, 0⟩, ⟨0, 0, 1⟩⟩, []⟩ :
            RotatedMonocrystal))).1).mem 0 =
      (rotateCell ⟨⟨0, 1, 0⟩, ⟨-1, 0, 0⟩, ⟨0, 0, 1⟩⟩)^[2]
        (CubicUnitCell 1) ∧
    (rotateCell ⟨⟨0, 1, 0⟩, ⟨-1, 0, 0⟩, ⟨0, 0, 1⟩⟩)^[2] (CubicUnitCell 1) ≠
      (rotateCell ⟨⟨0, 1, 0⟩, ⟨-1, 0, 0⟩, ⟨0, 0, 1⟩⟩)^[1]
        (CubicUnitCell 1) :=
  ⟨generate_atoms_rotation_compounds _ _ _ 2 rfl, by decide⟩

/-- C8: the `mono` driver hands a deep copy of the lattice to the builder,
so the caller's lattice — in particular its unit cell — is identical
before and after the generation run, and the model built inside `mono`
references a fresh cell, not the caller's. -/
theorem mono_preserves_caller_lattice (s : Store) (lat : StoredLattice)
    (nx ny nz : ℚ) (h : lat.cellRef < s.next) :
    ((mono s lat nx ny nz).1).mem lat.cellRef = s.mem lat.cellRef ∧
    ((mono s lat nx ny nz).2).cellRef ≠ lat.cellRef := by
  constructor
  · show (if lat.cellRef = s.next then s.mem lat.cellRef
          else s.mem lat.cellRef) = s.mem lat.cellRef
    rw [if_neg (Nat.ne_of_lt h)]
  · show s.next ≠ lat.cellRef
    exact (Nat.ne_of_lt h).symm

/-- Witness for C8 at a concrete one-cell store. -/
theorem mono_preserves_caller_lattice_witness :
    (0 : ℕ) < 1 ∧
    ((mono ⟨fun _ => CubicUnitCell 1, 1⟩ ⟨0, []⟩ 1 1 1).1).mem 0 =
      (⟨fun _ => CubicUnitCell 1, 1⟩ : Store).mem 0 ∧
    ((mono ⟨fun _ => CubicUnitCell 1, 1⟩ ⟨0, []⟩ 1 1 1).2).cellRef ≠ 0 :=
  ⟨Nat.zero_lt_one,
   (mono_preserves_caller_lattice ⟨fun _ => CubicUnitCell 1, 1⟩ ⟨0, []⟩
     1 1 1 Nat.zero_lt_one).1,
   (mono_preserves_caller_lattice ⟨fun _ => CubicUnitCell 1, 1⟩ ⟨0, []⟩
     1 1 1 Nat.zero_lt_one).2⟩
